import Mathlib

/-!
Verification of the TerraLedger repository's emissions calculator and
marketplace views against their specification.

The React component `EmissionTracker` (src/frontend/src/pages/EmissionTracker.tsx)
holds four pieces of form state and derives its displayed figures from a
hard-coded `monthlyEmissions` record; the `Marketplace` component
(src/frontend/src/components/Navigation.tsx) filters a static catalogue of four
carbon credits and sums statistics over the filtered list.  Both are embedded
below directly from the source.

The spec's `EmissionsAggregator` component (`computeMonthlyFootprint`,
`projectYearly`, `recommendOffset`) has no implementation anywhere in the
repository — the source only ships the hard-coded demo constants — so those
operations are modelled from the spec's own description (sections 3, 4.1, 6, 7)
and the claims about them are settled against that model.  Exact arithmetic is
modelled with ℚ, as the spec demands exact equalities.
-/

namespace TerraLedger

/-! ### EmissionTracker component (from src/frontend/src/pages/EmissionTracker.tsx) -/

/-- The four `useState` form fields of the `EmissionTracker` component
(lines 13–16 of EmissionTracker.tsx).  All are raw strings in the source. -/
structure TrackerState where
  cookingFuel : String
  fuelAmount : String
  generatorHours : String
  wasteAmount : String

/-- The shape of the hard-coded `monthlyEmissions` object literal. -/
structure MonthlyEmissions where
  cooking : Nat
  electricity : Nat
  transport : Nat
  waste : Nat
  deriving DecidableEq

/-- `monthlyEmissions` (lines 18–23): a constant object literal inside the
component body; the form state is in scope but unused. -/
def monthlyEmissions (_s : TrackerState) : MonthlyEmissions :=
  { cooking := 45, electricity := 32, transport := 28, waste := 15 }

/-- `Object.values(monthlyEmissions)` in insertion order. -/
def emissionsValues (m : MonthlyEmissions) : List Nat :=
  [m.cooking, m.electricity, m.transport, m.waste]

/-- `totalEmissions = Object.values(monthlyEmissions).reduce((a, b) => a + b, 0)`
(line 25). -/
def totalEmissions (s : TrackerState) : Nat :=
  (emissionsValues (monthlyEmissions s)).foldl (· + ·) 0

/-- `yearlyEmissions = totalEmissions * 12` (line 26). -/
def yearlyEmissions (s : TrackerState) : Nat :=
  totalEmissions s * 12

/-- The carbon-credit figure displayed on line 198:
`yearlyEmissions / 2000` (before `toFixed(1)` formatting). -/
def creditsFigure (s : TrackerState) : ℚ :=
  (yearlyEmissions s : ℚ) / 2000

/-! ### Marketplace component (from src/frontend/src/components/Navigation.tsx) -/

/-- One record of the static `carbonCredits` catalogue (lines 117–174).
The `image` import is modelled by its file name. -/
structure CarbonCredit where
  id : Nat
  name : String
  location : String
  type : String
  price : ℚ
  totalCredits : Nat
  availableCredits : Nat
  sequestrationRate : Nat
  verification : String
  rating : ℚ
  image : String
  impact : String
  deriving DecidableEq

def kenyanAgroforestry : CarbonCredit :=
  { id := 1, name := "Kenyan Agroforestry Project", location := "Nakuru County, Kenya",
    type := "Agroforestry", price := 25/2, totalCredits := 1000, availableCredits := 750,
    sequestrationRate := 85, verification := "AI + Satellite", rating := 49/10,
    image := "kenyan-agroforestry.jpg",
    impact := "Supporting 200 farming families while restoring degraded land" }

def nigerianMangrove : CarbonCredit :=
  { id := 2, name := "Nigerian Mangrove Restoration", location := "Niger Delta, Nigeria",
    type := "Coastal Restoration", price := 75/4, totalCredits := 500, availableCredits := 320,
    sequestrationRate := 92, verification := "AI + Satellite", rating := 24/5,
    image := "nigerian-mangrove.jpg",
    impact := "Protecting coastal communities and biodiversity" }

def ethiopianHighland : CarbonCredit :=
  { id := 3, name := "Ethiopian Highland Reforestation", location := "Amhara Region, Ethiopia",
    type := "Reforestation", price := 153/10, totalCredits := 2000, availableCredits := 1650,
    sequestrationRate := 78, verification := "AI + Satellite", rating := 47/10,
    image := "ethiopian-highland.jpg",
    impact := "Restoring traditional forest landscapes and water sources" }

def ghanaianCocoa : CarbonCredit :=
  { id := 4, name := "Ghanaian Cocoa Agroforestry", location := "Ashanti Region, Ghana",
    type := "Agroforestry", price := 71/5, totalCredits := 800, availableCredits := 480,
    sequestrationRate := 89, verification := "AI + Satellite", rating := 49/10,
    image := "ghanaian-cocoa.jpg",
    impact := "Improving cocoa farmer livelihoods through sustainable practices" }

/-- The static `carbonCredits` array of the `Marketplace` component. -/
def carbonCredits : List CarbonCredit :=
  [kenyanAgroforestry, nigerianMangrove, ethiopianHighland, ghanaianCocoa]

/-- `sub` is an initial segment of `l` (character-list version of
JavaScript's `String.prototype.startsWith`). -/
def leadsWith : List Char → List Char → Bool
  | [], _ => true
  | _ :: _, [] => false
  | a :: as, b :: bs => a == b && leadsWith as bs

/-- `sub` occurs contiguously inside `l` (character-list version of
JavaScript's `String.prototype.includes`). -/
def hasSeg (sub : List Char) : List Char → Bool
  | [] => leadsWith sub []
  | b :: bs => leadsWith sub (b :: bs) || hasSeg sub bs

/-- JavaScript `s.toLowerCase()` on the catalogue's ASCII strings, as a
character list. -/
def lowerChars (s : String) : List Char :=
  s.toList.map Char.toLower

/-- JavaScript `s.toLowerCase().includes(sub.toLowerCase())` on the
catalogue's ASCII strings. -/
def jsIncludes (s sub : String) : Bool :=
  hasSeg (lowerChars sub) (lowerChars s)

/-- `filteredCredits` (lines 176–178): the whole catalogue for the `"all"`
filter, otherwise
`carbonCredits.filter(credit => credit.type.toLowerCase().includes(selectedFilter.toLowerCase()))`. -/
def filteredCredits (selectedFilter : String) : List CarbonCredit :=
  if selectedFilter == "all" then carbonCredits
  else carbonCredits.filter fun credit => jsIncludes credit.type selectedFilter

/-- The "Credits Available" statistic (line 224):
`filteredCredits.reduce((acc, credit) => acc + credit.availableCredits, 0)`. -/
def creditsAvailableStat (selectedFilter : String) : Nat :=
  (filteredCredits selectedFilter).foldl (fun acc credit => acc + credit.availableCredits) 0

/-- The "Total Value" statistic (line 230):
`filteredCredits.reduce((acc, credit) => acc + credit.price * credit.availableCredits, 0)`. -/
def totalValueStat (selectedFilter : String) : ℚ :=
  (filteredCredits selectedFilter).foldl
    (fun acc credit => acc + credit.price * (credit.availableCredits : ℚ)) 0

/-! ### EmissionsAggregator (modelled from the spec, sections 3, 4.1, 6, 7) -/

/-- Modelled from the spec: the enumerated activity categories
(spec §3, ActivityInput: "cooking, electricity, transport, waste"). -/
inductive Category where
  | cooking
  | electricity
  | transport
  | waste
  deriving DecidableEq

/-- Modelled from the spec: the enumerated cooking fuel types
(spec §3: "charcoal, firewood, kerosene, LPG, electric"). -/
inductive FuelType where
  | charcoal
  | firewood
  | kerosene
  | lpg
  | electric
  deriving DecidableEq

/-- Modelled from the spec: recognition of a fuel-type selector string against
the enumeration; an unrecognized string yields `none`
(spec §8: "Unknown fuel-type string for cooking ⇒ InvalidInput"). -/
def parseFuelType : String → Option FuelType
  | "charcoal" => some .charcoal
  | "firewood" => some .firewood
  | "kerosene" => some .kerosene
  | "lpg" => some .lpg
  | "electric" => some .electric
  | _ => none

/-- The recognized selector string of each fuel type. -/
def fuelName : FuelType → String
  | .charcoal => "charcoal"
  | .firewood => "firewood"
  | .kerosene => "kerosene"
  | .lpg => "lpg"
  | .electric => "electric"

/-- Modelled from the spec: one ActivityInput record (spec §3): a category,
a numeric quantity (`none` models a non-numeric entry), and a fuel-type
selector string (relevant only for cooking). -/
structure ActivityInput where
  category : Category
  quantity : Option ℚ
  fuelType : String
  deriving DecidableEq

/-- Modelled from the spec: the static EmissionFactor mapping (spec §3):
a coefficient per (cooking, fuel-type) pair and a single fixed coefficient
for each other category; treated as configuration per spec §9. -/
structure FactorTable where
  cookingFactor : FuelType → ℚ
  electricityFactor : ℚ
  transportFactor : ℚ
  wasteFactor : ℚ

/-- The single fixed coefficient of a non-cooking category. -/
def categoryFactor (ft : FactorTable) : Category → ℚ
  | .cooking => 0
  | .electricity => ft.electricityFactor
  | .transport => ft.transportFactor
  | .waste => ft.wasteFactor

/-- Modelled from the spec: the two error kinds (spec §7). -/
inductive AggError where
  | invalidInput
  | invalidConfiguration
  deriving DecidableEq

/-- Modelled from the spec: a computed MonthlyFootprint (spec §3): a subtotal
per category plus a total. -/
structure MonthlyFootprint where
  cooking : ℚ
  electricity : ℚ
  transport : ℚ
  waste : ℚ
  total : ℚ
  deriving DecidableEq

/-- The record of the given category in the input collection (the spec's
inputs carry at most one record per category; an absent category yields
`none`). -/
def findInput (inputs : List ActivityInput) (c : Category) : Option ActivityInput :=
  inputs.find? fun i => decide (i.category = c)

/-- Modelled from the spec: the subtotal of one category
(spec §4.1, computeMonthlyFootprint): absent category ⇒ 0; negative or
non-numeric quantity ⇒ `InvalidInput`; for cooking,
subtotal = quantity × EmissionFactor[fuel-type] with an unrecognized
fuel-type ⇒ `InvalidInput`; for other categories,
subtotal = quantity × EmissionFactor[category]. -/
def subtotalFor (ft : FactorTable) (inputs : List ActivityInput) (c : Category) :
    Except AggError ℚ :=
  match findInput inputs c with
  | none => .ok 0
  | some i =>
    match i.quantity with
    | none => .error .invalidInput
    | some q =>
      if q < 0 then .error .invalidInput
      else
        match c with
        | .cooking =>
          match parseFuelType i.fuelType with
          | none => .error .invalidInput
          | some f => .ok (q * ft.cookingFactor f)
        | c' => .ok (q * categoryFactor ft c')

/-- Modelled from the spec: `computeMonthlyFootprint(inputs)` (spec §4.1):
all four category subtotals (0 if absent) and their sum as total. -/
def computeMonthlyFootprint (ft : FactorTable) (inputs : List ActivityInput) :
    Except AggError MonthlyFootprint := do
  let ck ← subtotalFor ft inputs .cooking
  let el ← subtotalFor ft inputs .electricity
  let tr ← subtotalFor ft inputs .transport
  let wa ← subtotalFor ft inputs .waste
  return { cooking := ck, electricity := el, transport := tr, waste := wa,
           total := ck + el + tr + wa }

/-- Modelled from the spec: a yearly projection (spec §4.1, projectYearly). -/
structure YearlyProjection where
  yearlyKg : ℚ
  yearlyTonnage : ℚ
  deriving DecidableEq

/-- Modelled from the spec: `projectYearly(monthlyFootprint)` (spec §4.1):
yearlyKg = monthlyTotal × 12, yearly tonnage = yearlyKg / 1000; no error
conditions. -/
def projectYearly (fp : MonthlyFootprint) : YearlyProjection :=
  { yearlyKg := fp.total * 12, yearlyTonnage := fp.total * 12 / 1000 }

/-- Modelled from the spec: an offset recommendation (spec §4.1). -/
structure OffsetRecommendation where
  creditsNeeded : ℚ
  estimatedCostUSD : ℚ
  deriving DecidableEq

/-- Modelled from the spec: `recommendOffset(yearlyTonnage, creditPriceUSD,
kgPerCredit)` (spec §4.1): fails with `InvalidConfiguration` if
kgPerCredit ≤ 0 or creditPriceUSD < 0; otherwise
creditsNeeded = yearlyTonnage × 1000 / kgPerCredit (not rounded) and
estimatedCostUSD = creditsNeeded × creditPriceUSD. -/
def recommendOffset (yearlyTonnage creditPriceUSD kgPerCredit : ℚ) :
    Except AggError OffsetRecommendation :=
  if kgPerCredit ≤ 0 ∨ creditPriceUSD < 0 then .error .invalidConfiguration
  else .ok { creditsNeeded := yearlyTonnage * 1000 / kgPerCredit,
             estimatedCostUSD := yearlyTonnage * 1000 / kgPerCredit * creditPriceUSD }

/-- Modelled from the spec: the fixed factors of the spec's worked example
(spec §8: "factors {charcoal: 9/kg, generator: 10.67/hr, waste: 7.5/kg}");
the factors the example leaves unnamed are set to 0. -/
def exampleFactors : FactorTable where
  cookingFactor := fun f => match f with | .charcoal => 9 | _ => 0
  electricityFactor := 1067/100
  transportFactor := 0
  wasteFactor := 15/2

/-- Modelled from the spec: the activity inputs of the spec's worked example
(spec §8: cooking 5 kg charcoal, electricity (generator) 3 hours,
transport 0, waste 2 kg). -/
def exampleInputs : List ActivityInput :=
  [{ category := .cooking, quantity := some 5, fuelType := "charcoal" },
   { category := .electricity, quantity := some 3, fuelType := "" },
   { category := .transport, quantity := some 0, fuelType := "" },
   { category := .waste, quantity := some 2, fuelType := "" }]

/-- The spec's input discipline (spec §4.1): an ordered collection of
ActivityInput records carrying at most one record per category. -/
def OnePerCategory (inputs : List ActivityInput) : Prop :=
  inputs.Pairwise fun i j => i.category ≠ j.category

/-- The spec's InvalidInput conditions for a record of category `c`
(spec §4.1 / §8): non-numeric quantity, negative quantity, or — for
cooking — unrecognized fuel-type string. -/
def BadFor (c : Category) (i : ActivityInput) : Prop :=
  i.quantity = none ∨ (∃ q, i.quantity = some q ∧ q < 0)
    ∨ (c = .cooking ∧ parseFuelType i.fuelType = none)

/-- An ActivityInput record meeting the spec's InvalidInput conditions. -/
def BadInput (i : ActivityInput) : Prop :=
  BadFor i.category i

/-! ### Basic lemmas -/

instance {ε α : Type} [DecidableEq ε] [DecidableEq α] : DecidableEq (Except ε α) := fun a b =>
  match a, b with
  | .error x, .error y => decidable_of_iff (x = y) (by simp)
  | .ok x, .ok y => decidable_of_iff (x = y) (by simp)
  | .error _, .ok _ => .isFalse (by simp)
  | .ok _, .error _ => .isFalse (by simp)

/-- Recognition inverts naming: every enumerated fuel's selector string parses
back to that fuel. -/
theorem parseFuelType_fuelName (f : FuelType) : parseFuelType (fuelName f) = some f := by
  cases f <;> rfl

/-- Under the one-record-per-category input discipline, `findInput` returns
exactly the member of the collection carrying the requested category. -/
theorem findInput_eq_some_iff (inputs : List ActivityInput) (c : Category)
    (hdis : OnePerCategory inputs) (i : ActivityInput) :
    findInput inputs c = some i ↔ i ∈ inputs ∧ i.category = c := by
  induction inputs with
  | nil => simp [findInput, List.find?]
  | cons a t ih =>
    rcases List.pairwise_cons.mp hdis with ⟨ha, ht⟩
    by_cases hac : a.category = c
    · constructor
      · intro h
        have hia : a = i := by
          simpa [findInput, List.find?, hac] using h
        subst hia
        exact ⟨List.mem_cons_self a t, hac⟩
      · rintro ⟨hmem, hic⟩
        have hia : i = a := by
          rcases List.mem_cons.mp hmem with h | h
          · exact h
          · exact absurd (hac.trans hic.symm) (ha i h)
        subst hia
        simp [findInput, List.find?, hac]
    · have hrec := ih ht
      constructor
      · intro h
        have h' : findInput t c = some i := by
          simpa [findInput, List.find?, hac] using h
        rcases hrec.mp h' with ⟨hmem, hic⟩
        exact ⟨List.mem_cons_of_mem a hmem, hic⟩
      · rintro ⟨hmem, hic⟩
        rcases List.mem_cons.mp hmem with h | h
        · exact absurd (h ▸ hic) hac
        · have h' : findInput t c = some i := hrec.mpr ⟨h, hic⟩
          simpa [findInput, List.find?, hac] using h'

/-- `subtotalFor` never signals InvalidConfiguration. -/
theorem subtotalFor_ne_invalidConfiguration (ft : FactorTable)
    (inputs : List ActivityInput) (c : Category) :
    subtotalFor ft inputs c ≠ .error .invalidConfiguration := by
  unfold subtotalFor
  cases hfi : findInput inputs c
  · simp
  case some i =>
    cases hq : i.quantity with
    | none => simp [hq]
    | some q =>
      by_cases hlt : q < 0
      · simp [hq, hlt]
      · cases c with
        | cooking =>
          cases hpf : parseFuelType i.fuelType with
          | none => simp [hq, hlt, hpf]
          | some f => simp [hq, hlt, hpf]
        | electricity => simp [hq, hlt]
        | transport => simp [hq, hlt]
        | waste => simp [hq, hlt]

/-- The only error `subtotalFor` can signal is InvalidInput. -/
theorem subtotalFor_error_eq (ft : FactorTable) (inputs : List ActivityInput)
    (c : Category) (e : AggError) (h : subtotalFor ft inputs c = .error e) :
    e = .invalidInput := by
  cases e with
  | invalidInput => rfl
  | invalidConfiguration => exact absurd h (subtotalFor_ne_invalidConfiguration ft inputs c)

/-- `subtotalFor` signals InvalidInput exactly when the found record of the
category violates one of the spec's input conditions. -/
theorem subtotalFor_error_iff (ft : FactorTable) (inputs : List ActivityInput)
    (c : Category) :
    subtotalFor ft inputs c = .error .invalidInput
      ↔ ∃ i, findInput inputs c = some i ∧ BadFor c i := by
  unfold subtotalFor
  cases hfi : findInput inputs c
  · simp
  case some i =>
    cases hq : i.quantity with
    | none => simp [hq, BadFor]
    | some q =>
      by_cases hlt : q < 0
      · simp [BadFor, hq, hlt]
      · cases c with
        | cooking =>
          cases hpf : parseFuelType i.fuelType with
          | none => simp [BadFor, hq, hlt, hpf]
          | some f => simp [BadFor, hq, hlt, hpf]
        | electricity => simp [BadFor, hq, hlt]
        | transport => simp [BadFor, hq, hlt]
        | waste => simp [BadFor, hq, hlt]

/-- Under the one-record-per-category discipline, some category subtotal
fails exactly when some record of the collection is bad. -/
theorem subtotal_bad_iff (ft : FactorTable) (inputs : List ActivityInput)
    (hdis : OnePerCategory inputs) :
    (∃ c, subtotalFor ft inputs c = .error .invalidInput) ↔ ∃ i ∈ inputs, BadInput i := by
  constructor
  · rintro ⟨c, hc⟩
    rcases (subtotalFor_error_iff ft inputs c).mp hc with ⟨i, hfi, hbad⟩
    rcases (findInput_eq_some_iff inputs c hdis i).mp hfi with ⟨hmem, hic⟩
    refine ⟨i, hmem, ?_⟩
    show BadFor i.category i
    rw [hic]
    exact hbad
  · rintro ⟨i, hmem, hbad⟩
    exact ⟨i.category, (subtotalFor_error_iff ft inputs i.category).mpr
      ⟨i, (findInput_eq_some_iff inputs i.category hdis i).mpr ⟨hmem, rfl⟩, hbad⟩⟩

/-- Evaluation of the spec's worked example under exact arithmetic: the
computed footprint is cooking 45, electricity 32.01, transport 0, waste 15,
total 92.01 (not the 32 / 92 the spec's example text announces). -/
theorem exampleFootprint_eval :
    computeMonthlyFootprint exampleFactors exampleInputs
      = .ok ⟨45, 3201/100, 0, 15, 9201/100⟩ := by
  simp [computeMonthlyFootprint, subtotalFor, findInput, List.find?, exampleInputs,
    exampleFactors, parseFuelType, categoryFactor, Bind.bind, Except.bind, pure, Except.pure]
  norm_num

/-! ### Theorems for the claims -/

/-- C1: computeMonthlyFootprint computes the cooking subtotal as
quantity × the factor selected by the cooking fuel-type, every other
category's subtotal as quantity × that category's single fixed factor,
treats an absent category as a zero subtotal, and returns all four category
subtotals together with their sum as the total. -/
theorem computeMonthlyFootprint_formula (ft : FactorTable) (f : FuelType)
    (qc qe qt qw : ℚ) (hc : 0 ≤ qc) (he : 0 ≤ qe) (ht : 0 ≤ qt) (hw : 0 ≤ qw) :
    computeMonthlyFootprint ft
        [{ category := .cooking, quantity := some qc, fuelType := fuelName f },
         { category := .electricity, quantity := some qe, fuelType := "" },
         { category := .transport, quantity := some qt, fuelType := "" },
         { category := .waste, quantity := some qw, fuelType := "" }]
      = .ok { cooking := qc * ft.cookingFactor f,
              electricity := qe * ft.electricityFactor,
              transport := qt * ft.transportFactor,
              waste := qw * ft.wasteFactor,
              total := qc * ft.cookingFactor f + qe * ft.electricityFactor
                + qt * ft.transportFactor + qw * ft.wasteFactor }
    ∧ computeMonthlyFootprint ft
        [{ category := .electricity, quantity := some qe, fuelType := "" },
         { category := .waste, quantity := some qw, fuelType := "" }]
      = .ok { cooking := 0, electricity := qe * ft.electricityFactor, transport := 0,
              waste := qw * ft.wasteFactor,
              total := qe * ft.electricityFactor + qw * ft.wasteFactor }
    ∧ computeMonthlyFootprint ft [] = .ok ⟨0, 0, 0, 0, 0⟩ := by
  refine ⟨?_, ?_, ?_⟩ <;>
    simp [computeMonthlyFootprint, subtotalFor, findInput, List.find?,
      parseFuelType_fuelName, categoryFactor, Bind.bind, Except.bind, pure, Except.pure,
      hc.not_lt, he.not_lt, ht.not_lt, hw.not_lt]

/-- Witness for C1 at the spec's worked example inputs. -/
theorem computeMonthlyFootprint_formula_witness :
    computeMonthlyFootprint exampleFactors
        [{ category := .cooking, quantity := some 5, fuelType := fuelName .charcoal },
         { category := .electricity, quantity := some 3, fuelType := "" },
         { category := .transport, quantity := some 0, fuelType := "" },
         { category := .waste, quantity := some 2, fuelType := "" }]
      = .ok { cooking := 5 * exampleFactors.cookingFactor .charcoal,
              electricity := 3 * exampleFactors.electricityFactor,
              transport := 0 * exampleFactors.transportFactor,
              waste := 2 * exampleFactors.wasteFactor,
              total := 5 * exampleFactors.cookingFactor .charcoal
                + 3 * exampleFactors.electricityFactor
                + 0 * exampleFactors.transportFactor
                + 2 * exampleFactors.wasteFactor } :=
  (computeMonthlyFootprint_formula exampleFactors .charcoal 5 3 0 2
    (by norm_num) (by norm_num) (by norm_num) (by norm_num)).1

/-- C2: for every computed MonthlyFootprint, the total field equals the exact
sum of the four category subtotals. -/
theorem computeMonthlyFootprint_total_eq_sum (ft : FactorTable)
    (inputs : List ActivityInput) (fp : MonthlyFootprint)
    (h : computeMonthlyFootprint ft inputs = .ok fp) :
    fp.total = fp.cooking + fp.electricity + fp.transport + fp.waste := by
  unfold computeMonthlyFootprint at h
  cases hck : subtotalFor ft inputs Category.cooking with
  | error e => simp [hck, Bind.bind, Except.bind] at h
  | ok ck =>
    cases hel : subtotalFor ft inputs Category.electricity with
    | error e => simp [hck, hel, Bind.bind, Except.bind] at h
    | ok el =>
      cases htr : subtotalFor ft inputs Category.transport with
      | error e => simp [hck, hel, htr, Bind.bind, Except.bind] at h
      | ok tr =>
        cases hwa : subtotalFor ft inputs Category.waste with
        | error e => simp [hck, hel, htr, hwa, Bind.bind, Except.bind] at h
        | ok wa =>
          simp [hck, hel, htr, hwa, Bind.bind, Except.bind, pure, Except.pure] at h
          subst h
          rfl

/-- Witness for C2 at the spec's worked example. -/
theorem computeMonthlyFootprint_total_eq_sum_witness :
    (MonthlyFootprint.mk 45 (3201/100) 0 15 (9201/100)).total
      = (MonthlyFootprint.mk 45 (3201/100) 0 15 (9201/100)).cooking
        + (MonthlyFootprint.mk 45 (3201/100) 0 15 (9201/100)).electricity
        + (MonthlyFootprint.mk 45 (3201/100) 0 15 (9201/100)).transport
        + (MonthlyFootprint.mk 45 (3201/100) 0 15 (9201/100)).waste :=
  computeMonthlyFootprint_total_eq_sum exampleFactors exampleInputs
    (MonthlyFootprint.mk 45 (3201/100) 0 15 (9201/100)) exampleFootprint_eval

/-- C3: projectYearly returns yearlyKg = total × 12 and
yearlyTonnage = total × 12 / 1000, exactly, for every footprint, with no
error conditions (the function is total). -/
theorem projectYearly_formula (fp : MonthlyFootprint) :
    (projectYearly fp).yearlyKg = fp.total * 12 ∧
    (projectYearly fp).yearlyTonnage = fp.total * 12 / 1000 :=
  ⟨rfl, rfl⟩

/-- C8: computeMonthlyFootprint is deterministic — two calls on identical
inputs return identical results (and, being a total function into plain
data, it has no side effects). -/
theorem computeMonthlyFootprint_deterministic (ft₁ ft₂ : FactorTable)
    (inputs₁ inputs₂ : List ActivityInput)
    (hft : ft₁ = ft₂) (hin : inputs₁ = inputs₂) :
    computeMonthlyFootprint ft₁ inputs₁ = computeMonthlyFootprint ft₂ inputs₂ := by
  rw [hft, hin]

/-- Witness for C8 at the spec's worked example. -/
theorem computeMonthlyFootprint_deterministic_witness :
    computeMonthlyFootprint exampleFactors exampleInputs
      = computeMonthlyFootprint exampleFactors exampleInputs :=
  computeMonthlyFootprint_deterministic exampleFactors exampleFactors
    exampleInputs exampleInputs rfl rfl

/-- C9: the figures the EmissionTracker component displays — totalEmissions,
yearlyEmissions and the credits figure yearlyEmissions / 2000 — are the same
for every assignment of the four form fields; they are determined by the
hard-coded monthlyEmissions constants alone (total 120 kg, yearly 1440 kg). -/
theorem trackerDisplay_independent_of_form (s₁ s₂ : TrackerState) :
    totalEmissions s₁ = totalEmissions s₂ ∧
    yearlyEmissions s₁ = yearlyEmissions s₂ ∧
    creditsFigure s₁ = creditsFigure s₂ ∧
    totalEmissions s₁ = 120 ∧ yearlyEmissions s₁ = 1440 := by
  refine ⟨rfl, rfl, rfl, ?_, ?_⟩ <;>
    simp [totalEmissions, yearlyEmissions, emissionsValues, monthlyEmissions]

/-- C4: computeMonthlyFootprint fails with InvalidInput exactly when some
input record has a negative or non-numeric quantity or — for cooking — an
unrecognized fuel-type string; no other error is possible, and every
collection free of these conditions succeeds. -/
theorem computeMonthlyFootprint_invalidInput_iff (ft : FactorTable)
    (inputs : List ActivityInput) (hdis : OnePerCategory inputs) :
    (computeMonthlyFootprint ft inputs = .error .invalidInput ↔ ∃ i ∈ inputs, BadInput i)
    ∧ (∀ e, computeMonthlyFootprint ft inputs = .error e → e = .invalidInput)
    ∧ ((∀ i ∈ inputs, ¬ BadInput i) →
        ∃ fp, computeMonthlyFootprint ft inputs = .ok fp) := by
  have hcases :
      (computeMonthlyFootprint ft inputs = .error .invalidInput
        ∧ ∃ c, subtotalFor ft inputs c = .error .invalidInput)
      ∨ ((∃ fp, computeMonthlyFootprint ft inputs = .ok fp)
        ∧ ∀ c, ∃ q, subtotalFor ft inputs c = .ok q) := by
    cases hck : subtotalFor ft inputs Category.cooking with
    | error e =>
      have he := subtotalFor_error_eq ft inputs Category.cooking e hck
      subst he
      exact Or.inl ⟨by simp [computeMonthlyFootprint, hck, Bind.bind, Except.bind],
        Category.cooking, hck⟩
    | ok ck =>
      cases hel : subtotalFor ft inputs Category.electricity with
      | error e =>
        have he := subtotalFor_error_eq ft inputs Category.electricity e hel
        subst he
        exact Or.inl ⟨by simp [computeMonthlyFootprint, hck, hel, Bind.bind, Except.bind],
          Category.electricity, hel⟩
      | ok el =>
        cases htr : subtotalFor ft inputs Category.transport with
        | error e =>
          have he := subtotalFor_error_eq ft inputs Category.transport e htr
          subst he
          exact Or.inl ⟨by simp [computeMonthlyFootprint, hck, hel, htr,
            Bind.bind, Except.bind], Category.transport, htr⟩
        | ok tr =>
          cases hwa : subtotalFor ft inputs Category.waste with
          | error e =>
            have he := subtotalFor_error_eq ft inputs Category.waste e hwa
            subst he
            exact Or.inl ⟨by simp [computeMonthlyFootprint, hck, hel, htr, hwa,
              Bind.bind, Except.bind], Category.waste, hwa⟩
          | ok wa =>
            refine Or.inr ⟨⟨⟨ck, el, tr, wa, ck + el + tr + wa⟩, ?_⟩, ?_⟩
            · simp [computeMonthlyFootprint, hck, hel, htr, hwa, Bind.bind,
                Except.bind, pure, Except.pure]
            · intro c
              cases c
              exacts [⟨ck, hck⟩, ⟨el, hel⟩, ⟨tr, htr⟩, ⟨wa, hwa⟩]
  have hbadiff := subtotal_bad_iff ft inputs hdis
  refine ⟨⟨?_, ?_⟩, ?_, ?_⟩
  · intro herr
    rcases hcases with ⟨_, hex⟩ | ⟨⟨fp, hfp⟩, _⟩
    · exact hbadiff.mp hex
    · rw [hfp] at herr
      exact absurd herr (by simp)
  · intro hbad
    rcases hcases with ⟨herr, _⟩ | ⟨⟨fp, hfp⟩, hallok⟩
    · exact herr
    · rcases hbadiff.mpr hbad with ⟨c, hc⟩
      rcases hallok c with ⟨q, hq⟩
      rw [hq] at hc
      exact absurd hc (by simp)
  · intro e herr
    rcases hcases with ⟨herr', _⟩ | ⟨⟨fp, hfp⟩, _⟩
    · rw [herr'] at herr
      injection herr with h'
      exact h'.symm
    · rw [hfp] at herr
      exact absurd herr (by simp)
  · intro hnone
    rcases hcases with ⟨_, hex⟩ | ⟨hok, _⟩
    · rcases hbadiff.mp hex with ⟨i, hmem, hbad⟩
      exact absurd hbad (hnone i hmem)
    · exact hok

/-- Witness for C4: a negative cooking quantity is rejected with
InvalidInput. -/
theorem computeMonthlyFootprint_invalidInput_iff_witness :
    computeMonthlyFootprint exampleFactors
        [{ category := .cooking, quantity := some (-1), fuelType := "charcoal" }]
      = .error .invalidInput :=
  (computeMonthlyFootprint_invalidInput_iff exampleFactors
      [{ category := .cooking, quantity := some (-1), fuelType := "charcoal" }]
      (by simp [OnePerCategory])).1.mpr
    ⟨{ category := .cooking, quantity := some (-1), fuelType := "charcoal" },
      by simp, Or.inr (Or.inl ⟨-1, rfl, by norm_num⟩)⟩

/-- C5 counterexample: under the example's exact factors
(charcoal 9/kg, generator 10.67/hr, waste 7.5/kg), the computed footprint is
not the one the spec's example announces — the electricity subtotal is
3 × 10.67 = 32.01, not 32, and the total is 92.01, not 92. -/
theorem exampleFootprint_counterexample :
    computeMonthlyFootprint exampleFactors exampleInputs
      ≠ .ok { cooking := 45, electricity := 32, transport := 0, waste := 15, total := 92 } := by
  rw [exampleFootprint_eval]
  intro h
  simp only [Except.ok.injEq, MonthlyFootprint.mk.injEq] at h
  exact absurd h.2.1 (by norm_num)

/-- C5 amended: for the inputs {cooking: 5 kg charcoal, electricity: 3 h,
transport: 0, waste: 2 kg} under any factor table with charcoal 9/kg,
generator 10.67/hr and waste 7.5/kg, the computed footprint is cooking = 45,
electricity = 32.01, transport = 0, waste = 15, total = 92.01 kg/month, and
the yearly projection is 1104.12 kg = 1.10412 t. -/
theorem exampleFootprint_amended (ft : FactorTable)
    (h9 : ft.cookingFactor .charcoal = 9) (hg : ft.electricityFactor = 1067/100)
    (hw : ft.wasteFactor = 15/2) :
    ∃ fp, computeMonthlyFootprint ft exampleInputs = .ok fp ∧
      fp.cooking = 45 ∧ fp.electricity = 3201/100 ∧ fp.transport = 0 ∧ fp.waste = 15 ∧
      fp.total = 9201/100 ∧
      (projectYearly fp).yearlyKg = 110412/100 ∧
      (projectYearly fp).yearlyTonnage = 110412/100000 := by
  refine ⟨⟨45, 3201/100, 0, 15, 9201/100⟩, ?_, rfl, rfl, rfl, rfl, rfl, ?_, ?_⟩
  · simp [computeMonthlyFootprint, subtotalFor, findInput, List.find?, exampleInputs,
      parseFuelType, categoryFactor, Bind.bind, Except.bind, pure, Except.pure, h9, hg, hw]
    norm_num
  · norm_num [projectYearly]
  · norm_num [projectYearly]

/-- Witness for the amended C5 at the example's factor table. -/
theorem exampleFootprint_amended_witness :
    ∃ fp, computeMonthlyFootprint exampleFactors exampleInputs = .ok fp ∧
      fp.cooking = 45 ∧ fp.electricity = 3201/100 ∧ fp.transport = 0 ∧ fp.waste = 15 ∧
      fp.total = 9201/100 ∧
      (projectYearly fp).yearlyKg = 110412/100 ∧
      (projectYearly fp).yearlyTonnage = 110412/100000 :=
  exampleFootprint_amended exampleFactors rfl rfl rfl

/-- C6: recommendOffset returns creditsNeeded = yearlyTonnage × 1000 /
kgPerCredit, unrounded, and estimatedCostUSD = creditsNeeded × creditPriceUSD;
in particular a 100 kg monthly total projects to 1200 kg = 1.2 t yearly, and
at 1000 kg per credit creditsNeeded = 1.2 with cost 1.2 × creditPriceUSD. -/
theorem recommendOffset_formula (yt p k : ℚ) (hk : 0 < k) (hp : 0 ≤ p) :
    recommendOffset yt p k
      = .ok { creditsNeeded := yt * 1000 / k, estimatedCostUSD := yt * 1000 / k * p }
    ∧ ∀ fp : MonthlyFootprint, fp.total = 100 →
        (projectYearly fp).yearlyKg = 1200 ∧ (projectYearly fp).yearlyTonnage = 6/5 ∧
        recommendOffset (projectYearly fp).yearlyTonnage p 1000
          = .ok { creditsNeeded := 6/5, estimatedCostUSD := 6/5 * p } := by
  have hcond : ¬ (k ≤ 0 ∨ p < 0) := by
    push_neg
    exact ⟨hk, hp⟩
  constructor
  · simp [recommendOffset, hcond]
  · intro fp hfp
    have h2 : (projectYearly fp).yearlyTonnage = 6/5 := by
      simp [projectYearly, hfp]
      norm_num
    refine ⟨by simp [projectYearly, hfp]; norm_num, h2, ?_⟩
    rw [h2]
    have hcond2 : ¬ ((1000 : ℚ) ≤ 0 ∨ p < 0) := by
      push_neg
      exact ⟨by norm_num, hp⟩
    simp [recommendOffset, hcond2]

/-- Witness for C6 at tonnage 1.2, price 15, 1000 kg per credit. -/
theorem recommendOffset_formula_witness :
    recommendOffset (6/5) 15 1000
      = .ok { creditsNeeded := (6/5) * 1000 / 1000,
              estimatedCostUSD := (6/5) * 1000 / 1000 * 15 } :=
  (recommendOffset_formula (6/5) 15 1000 (by norm_num) (by norm_num)).1

/-- C7: recommendOffset fails with InvalidConfiguration exactly when
kgPerCredit ≤ 0 or creditPriceUSD < 0; kgPerCredit = 0 in particular yields
InvalidConfiguration, and every valid configuration succeeds. -/
theorem recommendOffset_invalidConfiguration_iff (yt p k : ℚ) :
    (recommendOffset yt p k = .error .invalidConfiguration ↔ k ≤ 0 ∨ p < 0)
    ∧ recommendOffset yt p 0 = .error .invalidConfiguration
    ∧ (0 < k → 0 ≤ p → ∃ r, recommendOffset yt p k = .ok r) := by
  refine ⟨?_, ?_, ?_⟩
  · by_cases h : k ≤ 0 ∨ p < 0 <;> simp [recommendOffset, h]
  · simp [recommendOffset]
  · intro hk hp
    have hcond : ¬ (k ≤ 0 ∨ p < 0) := by
      push_neg
      exact ⟨hk, hp⟩
    exact ⟨{ creditsNeeded := yt * 1000 / k, estimatedCostUSD := yt * 1000 / k * p },
      by simp [recommendOffset, hcond]⟩

/-- Witness for C7: a zero conversion factor is rejected and a valid
configuration succeeds. -/
theorem recommendOffset_invalidConfiguration_iff_witness :
    ∃ r, recommendOffset (6/5) 15 1000 = .ok r :=
  (recommendOffset_invalidConfiguration_iff (6/5) 15 1000).2.2 (by norm_num) (by norm_num)

/-- Folding `acc + g x` over a list from an initial accumulator is the
accumulator plus the sum of the mapped list. -/
theorem foldl_add_map {α β : Type} [AddCommMonoid β] (g : α → β) :
    ∀ (l : List α) (b : β), l.foldl (fun acc x => acc + g x) b = b + (l.map g).sum := by
  intro l
  induction l with
  | nil => intro b; simp
  | cons a t ih => intro b; simp [ih, add_assoc]

/-- C10: in the Marketplace view, filteredCredits is the full four-entry
static catalogue for the "all" filter and otherwise exactly the credits whose
type contains the filter string case-insensitively; the "Credits Available"
statistic is the sum of availableCredits over filteredCredits and the
"Total Value" statistic the sum of price × availableCredits over
filteredCredits (concretely 3200 credits worth 47436 USD for "all", and the
"agroforestry" filter keeps exactly the Kenyan and Ghanaian projects). -/
theorem marketplace_filteredCredits_spec (f : String) :
    filteredCredits f
      = (if f = "all" then carbonCredits
         else carbonCredits.filter fun credit => jsIncludes credit.type f)
    ∧ creditsAvailableStat f = ((filteredCredits f).map CarbonCredit.availableCredits).sum
    ∧ totalValueStat f
        = ((filteredCredits f).map fun credit =>
            credit.price * (credit.availableCredits : ℚ)).sum
    ∧ filteredCredits "all" = carbonCredits
    ∧ carbonCredits.length = 4
    ∧ filteredCredits "agroforestry" = [kenyanAgroforestry, ghanaianCocoa]
    ∧ creditsAvailableStat "all" = 3200
    ∧ totalValueStat "all" = 47436 := by
  refine ⟨?_, ?_, ?_, ?_, ?_, ?_, ?_, ?_⟩
  · by_cases h : f = "all" <;> simp [filteredCredits, h]
  · simp [creditsAvailableStat, foldl_add_map]
  · simp [totalValueStat, foldl_add_map]
  · rfl
  · rfl
  · rfl
  · rfl
  · norm_num [totalValueStat, filteredCredits, carbonCredits, kenyanAgroforestry,
      nigerianMangrove, ethiopianHighland, ghanaianCocoa, List.foldl]

end TerraLedger
